import Mathlib

/-!
Verification development for the markdown-translation tool.

The block model and its operations are shallowly embedded from
`src/md_translate/document/_blocks.py` (pydantic v1 models) and
`src/md_translate/application.py`.  Python values that can appear in the
tagged-variant cache encoding are modelled by `PyVal`; a raised Python
exception is modelled by `Except.error` (for the codec) or `Option.none`
(for rendering, whose only outcomes are a string or an exception).
-/

/-- The single-quote character, written via its code point. -/
def squote : Char := Char.ofNat 39

/-- The double-quote character, written via its code point. -/
def dquote : Char := Char.ofNat 34

/-- The backslash character, written via its code point. -/
def bslash : Char := Char.ofNat 92

/-- A Python value as it can occur in the tagged-variant (dict) encoding:
strings, ints, bools, `None`, lists, string-keyed dicts, and the builtin
`str` type object (which appears because `ImageBlock.alt` has
`pydantic.Field(default=str)` — the *type* `str`, not a string). -/
inductive PyVal where
  | str (s : String)
  | int (n : Int)
  | bool (b : Bool)
  | none
  | typeStr
  | list (xs : List PyVal)
  | dict (fields : List (String × PyVal))

mutual

def PyVal.beq : PyVal → PyVal → Bool
  | .str a, .str b => a == b
  | .int a, .int b => a == b
  | .bool a, .bool b => a == b
  | .none, .none => true
  | .typeStr, .typeStr => true
  | .list xs, .list ys => PyVal.beqList xs ys
  | .dict xs, .dict ys => PyVal.beqFields xs ys
  | _, _ => false

def PyVal.beqList : List PyVal → List PyVal → Bool
  | [], [] => true
  | x :: xs, y :: ys => PyVal.beq x y && PyVal.beqList xs ys
  | _, _ => false

def PyVal.beqFields : List (String × PyVal) → List (String × PyVal) → Bool
  | [], [] => true
  | (k, v) :: xs, (l, w) :: ys => k == l && PyVal.beq v w && PyVal.beqFields xs ys
  | _, _ => false

end

mutual

def PyVal.beq_iff : ∀ (a b : PyVal), PyVal.beq a b = true ↔ a = b
  | .str _, b => by cases b <;> simp [PyVal.beq]
  | .int _, b => by cases b <;> simp [PyVal.beq]
  | .bool _, b => by cases b <;> simp [PyVal.beq]
  | .none, b => by cases b <;> simp [PyVal.beq]
  | .typeStr, b => by cases b <;> simp [PyVal.beq]
  | .list xs, b => by
      cases b <;> simp [PyVal.beq]
      exact PyVal.beqList_iff xs _
  | .dict xs, b => by
      cases b <;> simp [PyVal.beq]
      exact PyVal.beqFields_iff xs _

def PyVal.beqList_iff : ∀ (xs ys : List PyVal), PyVal.beqList xs ys = true ↔ xs = ys
  | [], ys => by cases ys <;> simp [PyVal.beqList]
  | x :: xs, ys => by
      cases ys with
      | nil => simp [PyVal.beqList]
      | cons y ys =>
          simp [PyVal.beqList, PyVal.beq_iff x y, PyVal.beqList_iff xs ys]

def PyVal.beqFields_iff :
    ∀ (xs ys : List (String × PyVal)), PyVal.beqFields xs ys = true ↔ xs = ys
  | [], ys => by cases ys <;> simp [PyVal.beqFields]
  | (k, v) :: xs, ys => by
      cases ys with
      | nil => simp [PyVal.beqFields]
      | cons p ys =>
          obtain ⟨l, w⟩ := p
          simp [PyVal.beqFields, PyVal.beq_iff v w, PyVal.beqFields_iff xs ys,
            Prod.ext_iff, and_assoc]

end

instance : DecidableEq PyVal := fun a b => decidable_of_iff _ (PyVal.beq_iff a b)

/-- The block tree of `_blocks.py`.  One constructor per concrete pydantic
model of the module.  `translatable` is the plain `Translatable` model
(`pydantic.BaseModel`, not a `BaseBlock`): it occurs as the element type of
`ListItemBlock.children`.  `base` is a bare `BaseBlock` instance, which the
codec can produce (e.g. when decoding `LinkBlock.text` elements, whose
declared field type is `List[BaseBlock]`).  `imageBlock.alt = none` models
the default value `str` (the type object). -/
inductive Block where
  | base
  | translatable (text : String) (translated_text : Option String)
  | rawData (name : String) (data : PyVal)
  | textBlock (text : String) (translated_text : Option String) (strong : Bool) (emphasis : Bool)
  | linkBlock (link : String) (title : Option String) (text : Option (List Block))
  | imageBlock (src : String) (alt : Option String) (title : Option String)
  | headingBlock (text : String) (translated_text : Option String) (level : Int)
  | separatorBlock
  | codeBlock (code : String) (language : Option String)
  | htmlBlock (code : String)
  | listItemBlock (children : List Block)
  | listBlock (children : List Block) (ordered : Bool)

mutual

def Block.beq : Block → Block → Bool
  | .base, .base => true
  | .translatable t tt, .translatable u uu => t == u && tt == uu
  | .rawData n d, .rawData m e => n == m && d == e
  | .textBlock t tt s e, .textBlock u uu s2 e2 => t == u && tt == uu && s == s2 && e == e2
  | .linkBlock l t x, .linkBlock l2 t2 x2 => l == l2 && t == t2 && Block.beqOptList x x2
  | .imageBlock s a t, .imageBlock s2 a2 t2 => s == s2 && a == a2 && t == t2
  | .headingBlock t tt l, .headingBlock u uu l2 => t == u && tt == uu && l == l2
  | .separatorBlock, .separatorBlock => true
  | .codeBlock c l, .codeBlock c2 l2 => c == c2 && l == l2
  | .htmlBlock c, .htmlBlock c2 => c == c2
  | .listItemBlock cs, .listItemBlock cs2 => Block.beqList cs cs2
  | .listBlock cs o, .listBlock cs2 o2 => Block.beqList cs cs2 && o == o2
  | _, _ => false

def Block.beqList : List Block → List Block → Bool
  | [], [] => true
  | x :: xs, y :: ys => Block.beq x y && Block.beqList xs ys
  | _, _ => false

def Block.beqOptList : Option (List Block) → Option (List Block) → Bool
  | Option.none, Option.none => true
  | some xs, some ys => Block.beqList xs ys
  | _, _ => false

end

mutual

def Block.beq_iff : ∀ (a b : Block), Block.beq a b = true ↔ a = b
  | .base, b => by cases b <;> simp [Block.beq]
  | .translatable _ _, b => by cases b <;> simp [Block.beq]
  | .rawData _ _, b => by cases b <;> simp [Block.beq]
  | .textBlock _ _ _ _, b => by cases b <;> simp [Block.beq, and_assoc]
  | .linkBlock l t x, b => by
      cases b <;> simp [Block.beq, and_assoc]
      intro _ _
      exact Block.beqOptList_iff x _
  | .imageBlock _ _ _, b => by cases b <;> simp [Block.beq, and_assoc]
  | .headingBlock _ _ _, b => by cases b <;> simp [Block.beq, and_assoc]
  | .separatorBlock, b => by cases b <;> simp [Block.beq]
  | .codeBlock _ _, b => by cases b <;> simp [Block.beq]
  | .htmlBlock _, b => by cases b <;> simp [Block.beq]
  | .listItemBlock cs, b => by
      cases b <;> simp [Block.beq]
      exact Block.beqList_iff cs _
  | .listBlock cs o, b => by
      cases b <;> simp [Block.beq]
      intro _
      exact Block.beqList_iff cs _

def Block.beqList_iff : ∀ (xs ys : List Block), Block.beqList xs ys = true ↔ xs = ys
  | [], ys => by cases ys <;> simp [Block.beqList]
  | x :: xs, ys => by
      cases ys with
      | nil => simp [Block.beqList]
      | cons y ys =>
          simp [Block.beqList, Block.beq_iff x y, Block.beqList_iff xs ys]

def Block.beqOptList_iff :
    ∀ (xs ys : Option (List Block)), Block.beqOptList xs ys = true ↔ xs = ys
  | Option.none, ys => by cases ys <;> simp [Block.beqOptList]
  | some xs, ys => by
      cases ys with
      | none => simp [Block.beqOptList]
      | some ys => simp [Block.beqOptList, Block.beqList_iff xs ys]

end

instance : DecidableEq Block := fun a b => decidable_of_iff _ (Block.beq_iff a b)

/-- Python `repr` of a string: quoted, preferring single quotes, switching to
double quotes when the string contains a single quote but no double quote;
backslashes, the quote character and common control characters are escaped. -/
def pyReprStr (s : String) : String :=
  let q : Char := if s.contains squote && !(s.contains dquote) then dquote else squote
  let esc : Char → String := fun c =>
    if c = bslash then String.mk [bslash, bslash]
    else if c = q then String.mk [bslash, q]
    else if c = '\n' then String.mk [bslash, 'n']
    else if c = '\r' then String.mk [bslash, 'r']
    else if c = '\t' then String.mk [bslash, 't']
    else String.mk [c]
  String.mk [q] ++ String.join (s.data.map esc) ++ String.mk [q]

mutual

/-- Python `str()` of a value.  Atoms print as in CPython; `str` of a list or
dict is its `repr`, which reprs the elements. -/
def pyStr : PyVal → String
  | .str s => s
  | .int n => toString n
  | .bool b => if b then "True" else "False"
  | .none => "None"
  | .typeStr => "<class " ++ String.mk [squote] ++ "str" ++ String.mk [squote] ++ ">"
  | .list xs => "[" ++ String.intercalate ", " (pyReprList xs) ++ "]"
  | .dict fs => "\x7b" ++ String.intercalate ", " (pyReprFields fs) ++ "\x7d"

/-- Python `repr()` of a value. -/
def pyRepr : PyVal → String
  | .str s => pyReprStr s
  | .int n => toString n
  | .bool b => if b then "True" else "False"
  | .none => "None"
  | .typeStr => "<class " ++ String.mk [squote] ++ "str" ++ String.mk [squote] ++ ">"
  | .list xs => "[" ++ String.intercalate ", " (pyReprList xs) ++ "]"
  | .dict fs => "\x7b" ++ String.intercalate ", " (pyReprFields fs) ++ "\x7d"

def pyReprList : List PyVal → List String
  | [] => []
  | x :: xs => pyRepr x :: pyReprList xs

def pyReprFields : List (String × PyVal) → List String
  | [] => []
  | (k, v) :: fs => (pyReprStr k ++ ": " ++ pyRepr v) :: pyReprFields fs

end

/-- Python truthiness (`if v:`) for the modelled values. -/
def pyTruthy : PyVal → Bool
  | .str s => s ≠ ""
  | .int n => n ≠ 0
  | .bool b => b
  | .none => false
  | .typeStr => true
  | .list xs => xs ≠ []
  | .dict fs => fs ≠ []

/-- Number sign rendering for `HeadingBlock.__str__`: Python's
`"#" * level` is empty for a non-positive level. -/
def hashes (level : Int) : String :=
  String.mk (List.replicate level.toNat '#')

/-- Python `str(x)` where `x` is `title or self.title`-style: `str(None)`
is the literal string `"None"`. -/
def pyStrOfOptStr : Option String → String
  | some s => s
  | Option.none => "None"

mutual

/-- The `__str__` (render) method of each block class of `_blocks.py`.
`Option.none` models a raised exception:
* `BaseBlock.__str__` raises `NotImplementedError`;
* `Translatable.__str__` evaluates (and discards)
  `'\n\n'.join([self.text, self.translated_text])` when `translated_text`
  is `None`, which raises `TypeError` because `None` is joined; when
  `translated_text` is set the `if` is skipped and `self.text` is returned;
* `TextBlock.__str__` overrides it: `**text**` when `strong`, else `*text*`
  when `emphasis`, else the bare text (never the translation);
* `LinkBlock.__str__` is `f'[{str(" ".join(map(str, self.text)) or self.title)}]({self.link})'`:
  a `None` text raises `TypeError`, an empty join falls back to
  `str(self.title)`, and the title is never emitted as a quoted suffix;
* `ImageBlock.__str__` is `f'![{self.alt}]({self.src})'`, where the default
  `alt` is the type object `str`;
* `ListItemBlock.__str__` concatenates the children's renders;
* `ListBlock.__str__` joins `f'{f"{counter}." if self.ordered else "*"} {str(item)}'`
  over `enumerate(self.children)` (counter starts at 0) with newlines. -/
def blockStr : Block → Option String
  | .base => Option.none
  | .translatable t tt =>
      match tt with
      | Option.none => Option.none
      | some _ => some t
  | .rawData _ data => some (pyStr data)
  | .textBlock t _ strong emphasis =>
      some (if strong then "**" ++ t ++ "**"
            else if emphasis then "*" ++ t ++ "*"
            else t)
  | .linkBlock link title text =>
      match text with
      | Option.none => Option.none
      | some xs =>
          (blockStrList xs).map (fun strs =>
            let joined := String.intercalate " " strs
            "[" ++ (if joined = "" then pyStrOfOptStr title else joined) ++ "](" ++ link ++ ")")
  | .imageBlock src alt _ =>
      some ("![" ++ (match alt with
                     | some a => a
                     | Option.none => pyStr PyVal.typeStr) ++ "](" ++ src ++ ")")
  | .headingBlock t _ level => some (hashes level ++ " " ++ t)
  | .separatorBlock => some "---"
  | .codeBlock code language =>
      some ("```" ++ (match language with
                      | some l => l
                      | Option.none => "") ++ "\n" ++ code ++ "\n```")
  | .htmlBlock code => some code
  | .listItemBlock children => (blockStrList children).map String.join
  | .listBlock children ordered =>
      (listLines 0 ordered children).map (String.intercalate "\n")

/-- Renders each block in order; the first raised exception propagates. -/
def blockStrList : List Block → Option (List String)
  | [] => some []
  | b :: bs =>
      match blockStr b with
      | Option.none => Option.none
      | some s => (blockStrList bs).map (s :: ·)

/-- The line comprehension of `ListBlock.__str__`: one line per item,
prefixed with `"{counter}."` (ordered) or `"*"` (unordered). -/
def listLines : Nat → Bool → List Block → Option (List String)
  | _, _, [] => some []
  | counter, ordered, item :: rest =>
      match blockStr item with
      | Option.none => Option.none
      | some s =>
          (listLines (counter + 1) ordered rest).map
            (((if ordered then toString counter ++ "." else "*") ++ " " ++ s) :: ·)

end

/-- The `should_be_translated` predicate: `BaseBlock` returns `False`; the
`Translatable` mixin overrides it with `translated_text is None`.  By the
method resolution order this override is what `TextBlock` and `HeadingBlock`
(which inherit from `Translatable` first) execute; `LinkBlock` and
`ImageBlock` do not inherit the mixin and keep the `BaseBlock` default. -/
def should_be_translated : Block → Bool
  | .translatable _ tt => tt.isNone
  | .textBlock _ tt _ _ => tt.isNone
  | .headingBlock _ tt _ => tt.isNone
  | _ => false

/-- The `IS_TRANSLATABLE` class variable: `True` on `TextBlock`, `LinkBlock`
and `ImageBlock`, `False` (the `BaseBlock` default) everywhere else. -/
def IS_TRANSLATABLE : Block → Bool
  | .textBlock _ _ _ _ => true
  | .linkBlock _ _ _ => true
  | .imageBlock _ _ _ => true
  | _ => false


/-- The names bound at module level in `_blocks.py` when
`BaseBlock.validate` runs: the module dunders, the imports
(`Any, ClassVar, Dict, List, Optional` from `typing` and `pydantic`), and
the twelve classes.  `block_type not in globals()` tests membership here. -/
def moduleGlobals : List String :=
  ["__name__", "__doc__", "__package__", "__loader__", "__spec__", "__file__", "__cached__",
   "__builtins__",
   "Any", "ClassVar", "Dict", "List", "Optional", "pydantic",
   "BaseBlock", "Translatable", "RawDataBlock", "TextBlock", "LinkBlock", "ImageBlock",
   "HeadingBlock", "SeparatorBlock", "CodeBlock", "HtmlBlock", "ListItemBlock", "ListBlock"]

/-- The module globals that are classes deriving from `BaseBlock` (and hence
run the `validate` root validator on construction).  `Translatable` is a
plain `pydantic.BaseModel` and is deliberately absent. -/
def baseBlockClassNames : List String :=
  ["BaseBlock", "RawDataBlock", "TextBlock", "LinkBlock", "ImageBlock",
   "HeadingBlock", "SeparatorBlock", "CodeBlock", "HtmlBlock", "ListItemBlock", "ListBlock"]

/-- Errors of a Python model construction, modelled coarsely by exception class:
`unknownVariant` is the `ValueError('Unknown Block Type: %s', ...)` raised by
`BaseBlock.validate`; `validationError` is any `pydantic.ValidationError`
(missing required field or wrong shape); `typeError` is a `TypeError`
(calling a non-class module global, iterating a non-iterable `children`
value); `outOfFuel` is the recursion-fuel sentinel, unreachable from the
entry points used in this file (they pass fuel exceeding the input depth). -/
inductive PyError where
  | unknownVariant (blockType : String)
  | validationError
  | typeError
  | outOfFuel
deriving DecidableEq

/-- Keyword-argument lookup: the value bound to `name`, if any. -/
def getField (fields : List (String × PyVal)) (name : String) : Option PyVal :=
  (fields.find? (fun kv => kv.1 == name)).map (fun kv => kv.2)

/-- pydantic v1 `str_validator` (lenient mode): strings pass through,
numbers (including bools, which are ints in Python) are stringified,
everything else is a validation error. -/
def parseStr : PyVal → Except PyError String
  | .str s => .ok s
  | .int n => .ok (toString n)
  | .bool b => .ok (if b then "True" else "False")
  | _ => .error .validationError

/-- pydantic v1 validation of an `Optional[str]` field value. -/
def parseOptStr : PyVal → Except PyError (Option String)
  | .none => .ok Option.none
  | v => (parseStr v).map some

/-- pydantic v1 `bool_validator`: bools pass through; the ints 0/1 and the
usual true/false strings (lowercased) coerce; everything else errors. -/
def parseBool : PyVal → Except PyError Bool
  | .bool b => .ok b
  | .int n =>
      if n = 0 then .ok false else if n = 1 then .ok true else .error .validationError
  | .str s =>
      let l := s.toLower
      if l ∈ ["1", "on", "t", "true", "y", "yes"] then .ok true
      else if l ∈ ["0", "off", "f", "false", "n", "no"] then .ok false
      else .error .validationError
  | _ => .error .validationError

/-- pydantic v1 `int_validator` (`int(v)`): ints pass through, bools are
their int value, numeric strings parse, everything else errors. -/
def parseInt : PyVal → Except PyError Int
  | .int n => .ok n
  | .bool b => .ok (if b then 1 else 0)
  | .str s =>
      match s.toInt? with
      | some n => .ok n
      | Option.none => .error .validationError
  | _ => .error .validationError

/-- The `text` pre-validator of `TextBlock` (`validate_text`): a list value
becomes `''.join(map(str, value))`; anything else is passed through. -/
def textBlockTextPre : PyVal → PyVal
  | .list xs => .str (String.join (xs.map pyStr))
  | v => v

/-- A `children` element after `BaseBlock.validate` ran: either an
already-constructed block (the element was a dict with a `block_type`), or
the untouched original value. -/
inductive FVal where
  | raw (v : PyVal)
  | blk (b : Block)
deriving DecidableEq

/-- The state of the `children` entry after `BaseBlock.validate`:
missing key, a falsy value left untouched, or the processed element list. -/
inductive ChildrenVal where
  | absent
  | untouched (v : PyVal)
  | processed (xs : List FVal)
deriving DecidableEq

/-- The `Translatable(**fields)` constructor (plain `pydantic.BaseModel`,
so no `validate` root validator): `text` is required, `translated_text`
defaults to `None`.  Extra keyword arguments are ignored (pydantic v1
default config). -/
def mkTranslatable (fields : List (String × PyVal)) : Except PyError Block := do
  let text ← match getField fields "text" with
    | some v => parseStr v
    | Option.none => .error .validationError
  let tt ← match getField fields "translated_text" with
    | some v => parseOptStr v
    | Option.none => .ok Option.none
  .ok (.translatable text tt)

/-- The element validation of `ListItemBlock.children : List[Translatable]`
(after the root validator ran).  An element that is already a model instance
is accepted iff it is an instance of `Translatable` (`TextBlock` and
`HeadingBlock` inherit from it); any other block instance fails, because
pydantic falls back to `Translatable(**dict(v))` and no other block's fields
provide a string `text` (LinkBlock's `text` is `None` or a list, both
rejected by the str validator).  A raw dict is parsed as
`Translatable(**dict)`; other raw values fail. -/
def parseTranslatableElem : FVal → Except PyError Block
  | .blk (.translatable t tt) => .ok (.translatable t tt)
  | .blk (.textBlock t tt s e) => .ok (.textBlock t tt s e)
  | .blk (.headingBlock t tt l) => .ok (.headingBlock t tt l)
  | .blk _ => .error .validationError
  | .raw (.dict fs) => mkTranslatable fs
  | .raw _ => .error .validationError

mutual

/-- `globals()[bt](**fields)` for a module-global name `bt`.  A pydantic
class runs its validators and builds an instance; the `BaseBlock`
subclasses first run the `validate` root validator (`validateF`), which
rewrites the `children` entry; `Translatable` is a plain model without it;
calling any non-class global (a module, a typing form, a dunder string)
raises `TypeError`.  The source pops `block_type` from the child dict
before the call; we pass the dict unchanged, which is extensionally
identical because no class declares a `block_type` field and pydantic v1
ignores unknown keyword arguments.  The `Nat` argument is recursion fuel,
strictly decreasing on every call; entry points pass more fuel than the
input's structural size, so `outOfFuel` is unreachable from them. -/
def constructF : Nat → String → List (String × PyVal) → Except PyError Block
  | 0, _, _ => .error .outOfFuel
  | fuel + 1, bt, fields =>
      if bt = "Translatable" then mkTranslatable fields
      else if bt ∉ baseBlockClassNames then .error .typeError
      else do
        let ch ← validateF fuel fields
        if bt = "BaseBlock" then pure Block.base
        else if bt = "RawDataBlock" then do
          let name ← match getField fields "name" with
            | some v => parseStr v
            | Option.none => Except.error PyError.validationError
          -- `data : Any` is implicitly optional in pydantic v1 (default None)
          pure (Block.rawData name ((getField fields "data").getD PyVal.none))
        else if bt = "TextBlock" then do
          let text ← match getField fields "text" with
            | some v => parseStr (textBlockTextPre v)
            | Option.none => Except.error PyError.validationError
          let tt ← match getField fields "translated_text" with
            | some v => parseOptStr v
            | Option.none => Except.ok Option.none
          let strong ← match getField fields "strong" with
            | some v => parseBool v
            | Option.none => Except.ok false
          let emphasis ← match getField fields "emphasis" with
            | some v => parseBool v
            | Option.none => Except.ok false
          pure (Block.textBlock text tt strong emphasis)
        else if bt = "LinkBlock" then do
          let link ← match getField fields "link" with
            | some v => parseStr v
            | Option.none => Except.error PyError.validationError
          let title ← match getField fields "title" with
            | some v => parseOptStr v
            | Option.none => Except.ok Option.none
          let text ← match getField fields "text" with
            | Option.none => Except.ok Option.none
            | some PyVal.none => Except.ok Option.none
            | some (PyVal.list xs) => (parseBaseListF fuel xs).map some
            | some _ => Except.error PyError.validationError
          pure (Block.linkBlock link title text)
        else if bt = "ImageBlock" then do
          let src ← match getField fields "src" with
            | some v => parseStr v
            | Option.none => Except.error PyError.validationError
          let alt ← match getField fields "alt" with
            | some v => (parseStr v).map some
            -- a missing `alt` keeps the unvalidated default: the type `str`
            | Option.none => Except.ok Option.none
          let title ← match getField fields "title" with
            | some v => parseOptStr v
            | Option.none => Except.ok Option.none
          pure (Block.imageBlock src alt title)
        else if bt = "HeadingBlock" then do
          let text ← match getField fields "text" with
            | some v => parseStr v
            | Option.none => Except.error PyError.validationError
          let tt ← match getField fields "translated_text" with
            | some v => parseOptStr v
            | Option.none => Except.ok Option.none
          let level ← match getField fields "level" with
            | some v => parseInt v
            | Option.none => Except.error PyError.validationError
          pure (Block.headingBlock text tt level)
        else if bt = "SeparatorBlock" then pure Block.separatorBlock
        else if bt = "CodeBlock" then do
          let code ← match getField fields "code" with
            | some v => parseStr v
            | Option.none => Except.error PyError.validationError
          let language ← match getField fields "language" with
            | some v => parseOptStr v
            | Option.none => Except.ok Option.none
          pure (Block.codeBlock code language)
        else if bt = "HtmlBlock" then do
          let code ← match getField fields "code" with
            | some v => parseStr v
            | Option.none => Except.error PyError.validationError
          pure (Block.htmlBlock code)
        else if bt = "ListItemBlock" then do
          let children ← match ch with
            | ChildrenVal.absent => Except.error PyError.validationError
            | ChildrenVal.untouched (PyVal.list xs) =>
                (xs.map FVal.raw).mapM parseTranslatableElem
            | ChildrenVal.untouched _ => Except.error PyError.validationError
            | ChildrenVal.processed xs => xs.mapM parseTranslatableElem
          pure (Block.listItemBlock children)
        else if bt = "ListBlock" then do
          let children ← match ch with
            | ChildrenVal.absent => Except.error PyError.validationError
            | ChildrenVal.untouched (PyVal.list xs) =>
                parseListItemListF fuel (xs.map FVal.raw)
            | ChildrenVal.untouched _ => Except.error PyError.validationError
            | ChildrenVal.processed xs => parseListItemListF fuel xs
          let ordered ← match getField fields "ordered" with
            | some v => parseBool v
            | Option.none => Except.ok false
          pure (Block.listBlock children ordered)
        else Except.error PyError.outOfFuel

/-- `BaseBlock.validate` (a `pre=True` root validator): when a truthy
`children` value is present, iterate it and replace each dict child that
carries a `block_type` with the constructed block; a non-truthy value is
left untouched; truthy non-iterables raise `TypeError` (iterating a string
yields its characters and a dict its keys, none of which are dicts, so they
are kept as-is). -/
def validateF : Nat → List (String × PyVal) → Except PyError ChildrenVal
  | 0, _ => .error .outOfFuel
  | fuel + 1, fields =>
      match getField fields "children" with
      | Option.none => .ok ChildrenVal.absent
      | some v =>
          if pyTruthy v then
            match v with
            | PyVal.list xs => (processChildListF fuel xs).map ChildrenVal.processed
            | PyVal.str s =>
                .ok (ChildrenVal.processed
                  (s.data.map (fun c => FVal.raw (PyVal.str (String.mk [c])))))
            | PyVal.dict fs =>
                .ok (ChildrenVal.processed (fs.map (fun kv => FVal.raw (PyVal.str kv.1))))
            | _ => .error PyError.typeError
          else .ok (ChildrenVal.untouched v)

def processChildListF : Nat → List PyVal → Except PyError (List FVal)
  | 0, _ => .error .outOfFuel
  | _ + 1, [] => .ok []
  | fuel + 1, v :: vs => do
      let x ← processChildF fuel v
      let xs ← processChildListF fuel vs
      pure (x :: xs)

/-- One loop iteration of `BaseBlock.validate`: a dict child with a
`block_type` key is dispatched through `globals()`; an unknown name raises
`ValueError('Unknown Block Type: %s', block_type)` (a non-string
discriminant is never a key of `globals()`, so it raises the same error);
any other child is appended unchanged. -/
def processChildF : Nat → PyVal → Except PyError FVal
  | 0, _ => .error .outOfFuel
  | fuel + 1, v =>
      match v with
      | PyVal.dict fs =>
          match getField fs "block_type" with
          | some (PyVal.str bt) =>
              if bt ∈ moduleGlobals then (constructF fuel bt fs).map FVal.blk
              else .error (PyError.unknownVariant bt)
          | some other => .error (PyError.unknownVariant (pyStr other))
          | Option.none => .ok (FVal.raw v)
      | _ => .ok (FVal.raw v)

/-- Validation of one element of `LinkBlock.text : Optional[List[BaseBlock]]`:
a dict is parsed into a bare `BaseBlock` (its root validator still runs, but
`BaseBlock` declares no fields, so everything else is dropped); a non-dict
value fails with a validation error.  (pydantic's fallback conversion
`dict(v)` of exotic iterables such as lists of pairs is not modelled; no
claim depends on it.) -/
def parseBaseElemF : Nat → PyVal → Except PyError Block
  | 0, _ => .error .outOfFuel
  | fuel + 1, v =>
      match v with
      | PyVal.dict fs => constructF fuel "BaseBlock" fs
      | _ => .error .validationError

def parseBaseListF : Nat → List PyVal → Except PyError (List Block)
  | 0, _ => .error .outOfFuel
  | _ + 1, [] => .ok []
  | fuel + 1, v :: vs => do
      let b ← parseBaseElemF fuel v
      let bs ← parseBaseListF fuel vs
      pure (b :: bs)

/-- Validation of one element of `ListBlock.children : List[ListItemBlock]`:
a `ListItemBlock` instance passes; any other block instance falls back to
`ListItemBlock(**dict(v))`, which only succeeds for an empty `ListBlock`
(its `children=[]` is a valid value; every other block either lacks a
`children` key or supplies non-`Translatable` children); a raw dict is
parsed as `ListItemBlock(**dict)` running its own validators. -/
def parseListItemElemF : Nat → FVal → Except PyError Block
  | 0, _ => .error .outOfFuel
  | fuel + 1, x =>
      match x with
      | FVal.blk (Block.listItemBlock cs) => .ok (Block.listItemBlock cs)
      | FVal.blk (Block.listBlock [] _) => .ok (Block.listItemBlock [])
      | FVal.blk _ => .error .validationError
      | FVal.raw (PyVal.dict fs) => constructF fuel "ListItemBlock" fs
      | FVal.raw _ => .error .validationError

def parseListItemListF : Nat → List FVal → Except PyError (List Block)
  | 0, _ => .error .outOfFuel
  | _ + 1, [] => .ok []
  | fuel + 1, x :: xs => do
      let b ← parseListItemElemF fuel x
      let bs ← parseListItemListF fuel xs
      pure (b :: bs)

end

mutual

/-- A computable structural size of a `PyVal`, used only to compute fuel. -/
def pyValSize : PyVal → Nat
  | .list xs => 1 + pyValSizeList xs
  | .dict fs => 1 + pyValSizeFields fs
  | _ => 1

def pyValSizeList : List PyVal → Nat
  | [] => 1
  | x :: xs => 1 + pyValSize x + pyValSizeList xs

def pyValSizeFields : List (String × PyVal) → Nat
  | [] => 1
  | (_, v) :: fs => 1 + pyValSize v + pyValSizeFields fs

end

/-- Fuel that strictly dominates the decoding recursion depth of `fields`:
every recursive call consumes one unit and either descends into a
structurally smaller value or is part of a bounded same-value chain. -/
def decodeFuel (fields : List (String × PyVal)) : Nat := 4 * pyValSizeFields fields + 4

/-- The per-child decode step of `BaseBlock.validate`, at its natural entry:
a discriminant that is not a module-global name raises
`ValueError('Unknown Block Type: ...')`; otherwise the named global is
called with the remaining fields. -/
def decode_tagged_child (bt : String) (fields : List (String × PyVal)) : Except PyError Block :=
  if bt ∈ moduleGlobals then constructF (decodeFuel fields) bt fields
  else .error (.unknownVariant bt)

/-- Encoding of an optional string field by pydantic `.dict()`. -/
def encOptStr : Option String → PyVal
  | some s => PyVal.str s
  | Option.none => PyVal.none

mutual

/-- The tagged-variant encoder: pydantic `.dict()` with the `BaseBlock.dict`
override, which appends `block_type = type(self).__name__`.  pydantic v1
serialises a nested model by calling its (overridden) `dict()`, so every
nested `BaseBlock` child carries its discriminant; a plain `Translatable`
has no override and is encoded without one.  Field order follows the
declaration order of each model. -/
def encodeBlock : Block → PyVal
  | .base => .dict [("block_type", .str "BaseBlock")]
  | .translatable t tt => .dict [("text", .str t), ("translated_text", encOptStr tt)]
  | .rawData name data =>
      .dict [("name", .str name), ("data", data), ("block_type", .str "RawDataBlock")]
  | .textBlock t tt s e =>
      .dict [("text", .str t), ("translated_text", encOptStr tt), ("strong", .bool s),
             ("emphasis", .bool e), ("block_type", .str "TextBlock")]
  | .linkBlock link title text =>
      .dict [("link", .str link), ("title", encOptStr title),
             ("text", match text with
                      | Option.none => PyVal.none
                      | some xs => PyVal.list (encodeList xs)),
             ("block_type", .str "LinkBlock")]
  | .imageBlock src alt title =>
      .dict [("src", .str src),
             ("alt", match alt with
                     | some a => PyVal.str a
                     | Option.none => PyVal.typeStr),
             ("title", encOptStr title), ("block_type", .str "ImageBlock")]
  | .headingBlock t tt level =>
      .dict [("text", .str t), ("translated_text", encOptStr tt), ("level", .int level),
             ("block_type", .str "HeadingBlock")]
  | .separatorBlock => .dict [("block_type", .str "SeparatorBlock")]
  | .codeBlock code language =>
      .dict [("code", .str code), ("language", encOptStr language),
             ("block_type", .str "CodeBlock")]
  | .htmlBlock code => .dict [("code", .str code), ("block_type", .str "HtmlBlock")]
  | .listItemBlock children =>
      .dict [("children", .list (encodeList children)), ("block_type", .str "ListItemBlock")]
  | .listBlock children ordered =>
      .dict [("children", .list (encodeList children)), ("ordered", .bool ordered),
             ("block_type", .str "ListBlock")]

def encodeList : List Block → List PyVal
  | [] => []
  | b :: bs => encodeBlock b :: encodeList bs

end

instance {ε α : Type} [DecidableEq ε] [DecidableEq α] : DecidableEq (Except ε α) := fun a b =>
  match a, b with
  | .ok x, .ok y => decidable_of_iff (x = y) (by simp)
  | .error x, .error y => decidable_of_iff (x = y) (by simp)
  | .ok _, .error _ => isFalse (by simp)
  | .error _, .ok _ => isFalse (by simp)


/-- Helper for Python's `in` on strings: does `n` occur as a contiguous
run at some position of `h`? -/
def pyInStrGo (n : List Char) : List Char → Bool
  | [] => n.isEmpty
  | c :: t => n.isPrefixOf (c :: t) || pyInStrGo n t

/-- Python's substring test `needle in haystack`. -/
def pyInStr (needle haystack : String) : Bool :=
  pyInStrGo needle.data haystack.data

/-- Lines 68-87 of `application.py`, abstracted over I/O: from the list of
discovered file names, `source_files` keeps those whose name does not
contain `'_translated'`; the subsequent `common_path_part` computation
indexes `source_files[0]`, so an empty selection raises `IndexError`
(modelled as `Option.none`); otherwise the selection is returned (the
logging in between does not affect the result). -/
def get_files_to_process (files_to_process : List String) : Option (List String) :=
  let source_files :=
    files_to_process.filter (fun name => !(pyInStr "_translated" name))
  if source_files = [] then Option.none else some source_files

/-- The observable outcome of one `Application.process_file` call. -/
structure ProcessFileOutcome where
  error_reported : Bool
  wrote_output : Bool
  raised : Bool
deriving DecidableEq

/-- `Application.process_file`, with its collaborators abstracted as
parameters: `from_file` is the result of `MarkdownDocument.from_file`
(error = the exception it raised), `should_be` is the document's
`should_be_translated(new_file, overwrite)` gate, and `translate` is
`document.translate(provider)` (error = the exception it raised).  The
control flow is the source's: a `from_file` failure is logged and the
function returns; a gated document is skipped; a `translate` failure is
logged (`logger.error` + `logger.exception`) and the function returns
before `document.write`; only a fully translated document is written.
Every failure path returns normally (`raised = false`), so a failing
document never aborts the caller's loop over the remaining documents. -/
def process_file (from_file : Except String (List Block)) (should_be : Bool)
    (translate : List Block → Except String (List Block)) : ProcessFileOutcome :=
  match from_file with
  | .error _ => ⟨true, false, false⟩
  | .ok document =>
      if !should_be then ⟨false, false, false⟩
      else
        match translate document with
        | .error _ => ⟨true, false, false⟩
        | .ok _ => ⟨false, true, false⟩

theorem listLines_eq : ∀ (c : Nat) (ordered : Bool) (children : List Block),
    listLines c ordered children
      = (blockStrList children).map (fun strs =>
          (List.enumFrom c strs).map
            (fun p => (if ordered then toString p.1 ++ "." else "*") ++ " " ++ p.2))
  | _, _, [] => by simp [listLines, blockStrList]
  | c, ordered, b :: bs => by
      cases h : blockStr b with
      | none => simp [listLines, blockStrList, h]
      | some s =>
          cases hbs : blockStrList bs with
          | none => simp [listLines, blockStrList, h, hbs, listLines_eq (c + 1) ordered bs]
          | some strs =>
              simp [listLines, blockStrList, h, hbs, listLines_eq (c + 1) ordered bs,
                List.enumFrom]

/-- C1: the claim fails on the code: a TextBlock — and likewise the plain
Translatable inline — whose `translated_text` is set renders as the
original text alone: `TextBlock(text='Hola', translated_text='Hello')`
renders as `"Hola"`, not as `"Hola\n\nHello"`.  (`TextBlock.__str__` never
consults `translated_text`; `Translatable.__str__` computes the join in a
dead branch and always returns `self.text`.) -/
theorem c1_render_drops_translation :
    blockStr (.textBlock "Hola" (some "Hello") false false) = some "Hola"
      ∧ blockStr (.translatable "Hola" (some "Hello")) = some "Hola"
      ∧ some "Hola" ≠ some ("Hola" ++ "\n\n" ++ "Hello") := by
  decide

/-- C2: the claim fails on the code: rendering raises for a LinkBlock whose
`text` is None (`TypeError` from `" ".join(map(str, None))`) and for a
Translatable leaf whose `translated_text` is None (`TypeError` from
`'\n\n'.join([self.text, None])`), also when such a leaf sits inside a
ListItemBlock; `Option.none` models the raised exception. -/
theorem c2_render_raises :
    blockStr (.linkBlock "u" Option.none Option.none) = Option.none
      ∧ blockStr (.translatable "Hola" Option.none) = Option.none
      ∧ blockStr (.listItemBlock [.translatable "Hola" Option.none]) = Option.none := by
  decide

/-- C4: counterexample to the claim as stated: an unordered ListBlock
prefixes its items with `*`, not `-`, and an ordered one numbers from 0
(`enumerate`'s default) — the model has no `start` field at all. -/
theorem c4_counterexample :
    blockStr (.listBlock [.listItemBlock [.translatable "a" (some "t")],
                          .listItemBlock [.translatable "b" (some "t")]] true)
        = some ("0. a" ++ "\n" ++ "1. b")
      ∧ blockStr (.listBlock [.listItemBlock [.translatable "a" (some "t")]] false)
        = some "* a"
      ∧ "* a" ≠ "- a"
      ∧ ("0. a" ++ "\n" ++ "1. b") ≠ ("1. a" ++ "\n" ++ "2. b") := by
  decide

/-- C4 (amended): for every ListBlock all of whose items render, the render
is the newline join of one line per item, in order, prefixed `"N. "` with N
counting up from 0 when `ordered` and `"* "` otherwise. -/
theorem c4_list_render_amended (children : List Block) (ordered : Bool) (strs : List String)
    (h : blockStrList children = some strs) :
    blockStr (.listBlock children ordered)
      = some (String.intercalate "\n"
          ((List.enumFrom 0 strs).map
            (fun p => (if ordered then toString p.1 ++ "." else "*") ++ " " ++ p.2))) := by
  simp [blockStr, listLines_eq, h]

/-- Witness for the amended C4 theorem at a concrete two-item ordered list. -/
theorem c4_amended_witness :
    (blockStrList [Block.listItemBlock [.translatable "a" (some "t")],
                   Block.listItemBlock [.translatable "b" (some "t")]] = some ["a", "b"])
      ∧ blockStr (.listBlock [.listItemBlock [.translatable "a" (some "t")],
                              .listItemBlock [.translatable "b" (some "t")]] true)
          = some (String.intercalate "\n"
              ((List.enumFrom 0 ["a", "b"]).map
                (fun p => (if true then toString p.1 ++ "." else "*") ++ " " ++ p.2))) :=
  ⟨by decide, c4_list_render_amended _ true ["a", "b"] (by decide)⟩

/-- C5: counterexample to the claim as stated: an ImageBlock is a
Translatable kind per the data-model table (its `IS_TRANSLATABLE` class
variable is True) and carries no translation, yet `should_be_translated`
returns false — ImageBlock does not inherit the Translatable mixin. -/
theorem c5_counterexample :
    should_be_translated (.imageBlock "pic.png" (some "alt") Option.none) = false
      ∧ IS_TRANSLATABLE (.imageBlock "pic.png" (some "alt") Option.none) = true := by
  decide

/-- C5 (amended): `should_be_translated` is total, false by default, and
true exactly for the kinds that inherit the Translatable mixin — the plain
Translatable inline, TextBlock and HeadingBlock — when their
`translated_text` is null; LinkBlock and ImageBlock, although flagged
`IS_TRANSLATABLE`, always yield false. -/
theorem c5_needs_translation_amended (b : Block) :
    should_be_translated b = true
      ↔ ((∃ t, b = .translatable t Option.none)
          ∨ (∃ t s e, b = .textBlock t Option.none s e)
          ∨ (∃ t l, b = .headingBlock t Option.none l)) := by
  cases b <;> simp [should_be_translated, Option.isNone_iff_eq_none]

/-- C6: counterexample to the claim as stated: the discriminant
`"Translatable"` names no concrete block kind (it is the mixin), yet the
decode step does not fail with the UnknownVariant error — the membership
test is against `globals()`, so the mixin is constructed as a node;
likewise `"pydantic"` passes the test and then fails with a TypeError
instead of the UnknownVariant error. -/
theorem c6_counterexample :
    decode_tagged_child "Translatable" [("text", PyVal.str "x")]
        = .ok (.translatable "x" Option.none)
      ∧ decode_tagged_child "pydantic" [] = .error .typeError := by
  decide

/-- C6 (amended): decoding a child fails with the UnknownVariant error
(`ValueError('Unknown Block Type: ...')`) whenever the discriminant names
nothing in the blocks module's global namespace — a superset of the block
kinds that also contains the imports and the Translatable mixin. -/
theorem c6_unknown_discriminant_amended (bt : String) (fields : List (String × PyVal))
    (h : bt ∉ moduleGlobals) :
    decode_tagged_child bt fields = .error (.unknownVariant bt) := by
  simp [decode_tagged_child, h]

/-- Witness for the amended C6 theorem at a concrete unknown name. -/
theorem c6_amended_witness :
    ("FooBlock" ∉ moduleGlobals)
      ∧ decode_tagged_child "FooBlock" [] = .error (.unknownVariant "FooBlock") :=
  ⟨by decide, c6_unknown_discriminant_amended "FooBlock" [] (by decide)⟩

/-- C7: when the translation step fails, `process_file` reports the error
and returns without writing any output for that document, and the
exception does not propagate, so the caller's loop over the remaining
documents keeps going. -/
theorem c7_translate_failure_no_write (document : List Block)
    (translate : List Block → Except String (List Block)) (e : String)
    (h : translate document = .error e) :
    process_file (.ok document) true translate
      = { error_reported := true, wrote_output := false, raised := false } := by
  simp [process_file, h]

/-- Witness for the C7 theorem at a concrete failing translation. -/
theorem c7_witness :
    ((fun _ => Except.error "boom" : List Block → Except String (List Block)) [] = .error "boom")
      ∧ process_file (.ok ([] : List Block)) true (fun _ => Except.error "boom")
          = { error_reported := true, wrote_output := false, raised := false } :=
  ⟨rfl, c7_translate_failure_no_write [] (fun _ => Except.error "boom") "boom" rfl⟩

/-- C8: counterexample to the claim as stated: a LinkBlock with a set title
and non-empty link text renders as `[x](u)` — the title is not emitted at
all, in particular not as a quoted suffix (the output has no double-quote
character and does not contain the title). -/
theorem c8_counterexample :
    blockStr (.linkBlock "u" (some "T") (some [.translatable "x" (some "q")])) = some "[x](u)"
      ∧ "[x](u)".data.contains dquote = false
      ∧ pyInStr "T" "[x](u)" = false := by
  decide

/-- C8 (amended): the title never appears as a quoted suffix: whenever the
space-join of the rendered link text is non-empty, a LinkBlock renders as
`[inline render](url)` with the title — set or not — ignored; the title is
used, unquoted and as the bracketed text, only when that join is empty. -/
theorem c8_link_title_amended (link : String) (title : Option String)
    (children : List Block) (strs : List String)
    (h : blockStrList children = some strs)
    (hj : String.intercalate " " strs ≠ "") :
    blockStr (.linkBlock link title (some children))
      = some ("[" ++ String.intercalate " " strs ++ "](" ++ link ++ ")") := by
  simp [blockStr, h, hj]

/-- Witness for the amended C8 theorem at a concrete titled link. -/
theorem c8_amended_witness :
    (blockStrList [Block.translatable "x" (some "q")] = some ["x"])
      ∧ (String.intercalate " " ["x"] ≠ "")
      ∧ blockStr (.linkBlock "u" (some "T") (some [.translatable "x" (some "q")]))
          = some ("[" ++ String.intercalate " " ["x"] ++ "](" ++ "u" ++ ")") :=
  ⟨by decide, by decide,
    c8_link_title_amended "u" (some "T") _ ["x"] (by decide) (by decide)⟩

/-- C9: when the strong flag is set, a TextBlock renders as `**text**`
regardless of the emphasis flag — `strong` is tested first, so the two
flags never combine into `***text***`. -/
theorem c9_strong_precedence (t : String) (tt : Option String) (e : Bool) :
    blockStr (.textBlock t tt true e) = some ("**" ++ t ++ "**") := by
  simp [blockStr]

/-- C10: every file name returned by `_get_files_to_process` lacks the
substring `'_translated'`: previously produced output files are never
selected for processing. -/
theorem c10_translated_excluded (files result : List String) (f : String)
    (h : get_files_to_process files = some result) (hf : f ∈ result) :
    pyInStr "_translated" f = false := by
  unfold get_files_to_process at h
  by_cases hempty : files.filter (fun name => !(pyInStr "_translated" name)) = []
  · simp [hempty] at h
  · simp only [hempty, if_false, Option.some.injEq] at h
    subst h
    have := List.of_mem_filter hf
    simpa using this

/-- Witness for the C10 theorem at a concrete discovered-file list. -/
theorem c10_witness :
    (get_files_to_process ["a.md", "b_translated.md"] = some ["a.md"])
      ∧ ("a.md" ∈ ["a.md"])
      ∧ pyInStr "_translated" "a.md" = false :=
  ⟨by decide, by decide,
    c10_translated_excluded ["a.md", "b_translated.md"] ["a.md"] "a.md"
      (by decide) (by decide)⟩
